import Mathlib

/-!
# Verification of the employee-management-node persistence/validation core

Shallow embedding of `src/server.js` (HTTP handlers) and
`src/mcp-server.mjs` (tool handlers). Stateful code is modelled by
explicit state passing over the backing document; JavaScript strings are
Lean `String`s, JavaScript numbers holding ids and salaries are `Int`.
-/

/-- One employee record, the fields built by the create handlers
(`server.js` lines 78-88, `mcp-server.mjs` lines 119-129). -/
structure Employee where
  id : Int
  name : String
  email : String
  phone : String
  role : String
  department : String
  salary : Int
  date_of_joining : String
  status : String
deriving Repr, DecidableEq

/-- A JSON request body for create/update: each field may be absent
(`undefined` in JavaScript) or present with a value. The body's `id`, if
any, is never read by the handlers, so it is not modelled. -/
structure EmployeeInput where
  name : Option String := none
  email : Option String := none
  phone : Option String := none
  role : Option String := none
  department : Option String := none
  salary : Option Int := none
  date_of_joining : Option String := none
  status : Option String := none
deriving Repr, DecidableEq

/-- JavaScript `s.trim()`: drop leading and trailing whitespace. -/
def jsTrim (s : String) : String :=
  String.mk (((s.data.dropWhile Char.isWhitespace).reverse.dropWhile Char.isWhitespace).reverse)

/-- JavaScript `s.replace(/\D/g, "")`: keep only the digit characters. -/
def stripNonDigits (s : String) : String :=
  String.mk (s.data.filter Char.isDigit)

/-- `String(x).trim().replace(/\D/g, "")`, the phone normalization used by
both phone-validation sites in `server.js` (lines 70-71 and 130-131). -/
def normalizePhone (s : String) : String :=
  stripNonDigits (jsTrim s)

/-- JavaScript `s || d` for strings: `d` when `s` is falsy (the empty
string), otherwise `s`. -/
def jsOrStr (s d : String) : String :=
  if s = "" then d else s

/-- JavaScript `o || d` where `o` is an optional string field of a body:
falsy when absent (`undefined`) or empty. -/
def jsOrOpt (o : Option String) (d : String) : String :=
  match o with
  | none => d
  | some s => jsOrStr s d

/-- JavaScript `o || d` for an optional numeric field: falsy when absent or
zero. -/
def jsOrOptInt (o : Option Int) (d : Int) : Int :=
  match o with
  | none => d
  | some n => if n = 0 then d else n

/-- `!data[field] || String(data[field]).trim() === ""`: the required-field
test of `server.js` line 64 on one optional body field. -/
def isMissing (o : Option String) : Bool :=
  match o with
  | none => true
  | some s => s = "" || jsTrim s = ""

/-- JavaScript `Math.max(...)` over a list of numbers; the handlers only
apply it to non-empty lists, the `[]` value is never reached. -/
def jsMax : List Int → Int
  | [] => 0
  | [x] => x
  | x :: y :: rest => max x (jsMax (y :: rest))

/-- The state of the backing `employees.json` document. File access
(`fs`) and `JSON.parse`/`JSON.stringify` are external collaborators; the
serialized text is modelled at the level of the value it encodes, which
those library functions round-trip for this data. -/
inductive StoredDoc where
  /-- the file does not exist (`fs.existsSync` is false) -/
  | absent : StoredDoc
  /-- the file exists but its text is empty or whitespace-only
  (`!raw.trim()`) -/
  | blank : StoredDoc
  /-- the file exists but reading it or `JSON.parse` throws -/
  | corrupt : StoredDoc
  /-- the file holds the JSON serialization of this employee list -/
  | stored : List Employee → StoredDoc
deriving Repr, DecidableEq

/-- `loadEmployees` (`server.js` lines 21-33, identical in
`mcp-server.mjs`): an empty list for an absent, blank or unparseable
document, otherwise the parsed collection. -/
def loadEmployees : StoredDoc → List Employee
  | .absent => []
  | .blank => []
  | .corrupt => []
  | .stored employees => employees

/-- `saveEmployees` (`server.js` lines 35-37): overwrite the document with
the serialization of the full collection. -/
def saveEmployees (employees : List Employee) : StoredDoc :=
  .stored employees

/-- `getNextId` (`server.js` lines 39-42): 1 on an empty collection,
otherwise `Math.max(...ids) + 1`. -/
def getNextId (employees : List Employee) : Int :=
  if employees.length = 0 then 1
  else jsMax (employees.map (fun e => e.id)) + 1

/-- An HTTP response as produced by the API routes: a JSON error body, a
JSON employee body, or an empty body, each with its status code. -/
inductive ApiResponse where
  | errorRes : Nat → String → ApiResponse
  | employeeRes : Nat → Employee → ApiResponse
  | emptyRes : Nat → ApiResponse
deriving Repr, DecidableEq

/-- The record literal of `server.js` lines 78-88: the new employee built
by the create handler once validation has passed. -/
def newEmployeeOf (employees : List Employee) (data : EmployeeInput) : Employee :=
  { id := getNextId employees
    name := data.name.getD ""
    email := data.email.getD ""
    phone := normalizePhone (jsOrOpt data.phone "")
    role := jsOrOpt data.role ""
    department := jsOrOpt data.department ""
    salary := jsOrOptInt data.salary 0
    date_of_joining := jsOrOpt data.date_of_joining ""
    status := jsOrOpt data.status "Active" }

/-- `POST /api/employees` (`server.js` lines 58-94): check the required
fields in order, validate the phone, then append the new record and
persist; on failure the document is not written. -/
def postEmployees (doc : StoredDoc) (data : EmployeeInput) : ApiResponse × StoredDoc :=
  let employees := loadEmployees doc
  if isMissing data.name then (.errorRes 400 "'name' is required", doc)
  else if isMissing data.email then (.errorRes 400 "'email' is required", doc)
  else if isMissing data.phone then (.errorRes 400 "'phone' is required", doc)
  else
    let phoneDigits := normalizePhone (jsOrOpt data.phone "")
    if phoneDigits.length ≠ 10 then
      (.errorRes 400 "Phone number must be exactly 10 digits", doc)
    else
      let newEmployee := newEmployeeOf employees data
      (.employeeRes 201 newEmployee, saveEmployees (employees ++ [newEmployee]))

/-- The record literal of `server.js` lines 140-150: the merge
`{...emp, name: data.name ?? emp.name, ...}` with the already-validated
phone. `??` keeps the prior value only when the field is absent. -/
def mergeEmployee (emp : Employee) (data : EmployeeInput) (updatedPhone : String) : Employee :=
  { id := emp.id
    name := data.name.getD emp.name
    email := data.email.getD emp.email
    phone := updatedPhone
    role := data.role.getD emp.role
    department := data.department.getD emp.department
    salary := data.salary.getD emp.salary
    date_of_joining := data.date_of_joining.getD emp.date_of_joining
    status := data.status.getD emp.status }

/-- `employees[index] = updated` where `index` is the `findIndex` result:
replace the first record whose id matches. -/
def replaceFirst (l : List Employee) (id : Int) (updated : Employee) : List Employee :=
  match l with
  | [] => []
  | e :: rest => if e.id = id then updated :: rest else e :: replaceFirst rest id updated

/-- `PUT /api/employees/:id` (`server.js` lines 115-154): 404 when no
record has the id; if a phone is supplied it is normalized and must have
exactly 10 digits, else 400 with nothing written; otherwise the merged
record replaces the old one and the collection is persisted. -/
def putEmployee (doc : StoredDoc) (id : Int) (data : EmployeeInput) : ApiResponse × StoredDoc :=
  let employees := loadEmployees doc
  match employees.find? (fun e => e.id == id) with
  | none => (.errorRes 404 "Employee not found", doc)
  | some emp =>
    match data.phone with
    | none =>
      let updated := mergeEmployee emp data emp.phone
      (.employeeRes 200 updated, saveEmployees (replaceFirst employees id updated))
    | some p =>
      let phoneDigits := normalizePhone (jsOrStr p "")
      if phoneDigits.length ≠ 10 then
        (.errorRes 400 "Phone number must be exactly 10 digits", doc)
      else
        let updated := mergeEmployee emp data phoneDigits
        (.employeeRes 200 updated, saveEmployees (replaceFirst employees id updated))

/-- `DELETE /api/employees/:id` (`server.js` lines 157-168): filter out the
id; when nothing was removed answer 404 and write nothing, else persist the
remaining records and answer 204. -/
def deleteEmployeeRoute (doc : StoredDoc) (id : Int) : ApiResponse × StoredDoc :=
  let employees := loadEmployees doc
  let filtered := employees.filter (fun e => e.id ≠ id)
  if filtered.length = employees.length then (.errorRes 404 "Employee not found", doc)
  else (.emptyRes 204, saveEmployees filtered)

/-- A tool response: the MCP tools always answer with one text block. -/
inductive ToolResponse where
  | text : String → ToolResponse
deriving Repr, DecidableEq

/-- `delete_employee` tool (`mcp-server.mjs` lines 163-189): same filter as
the HTTP route, but a textual not-found message instead of a 404. -/
def delete_employee (doc : StoredDoc) (id : Int) : ToolResponse × StoredDoc :=
  let employees := loadEmployees doc
  let filtered := employees.filter (fun e => e.id ≠ id)
  if filtered.length = employees.length then
    (.text ("No employee found with id " ++ toString id ++ "."), doc)
  else
    (.text ("Employee with id " ++ toString id ++ " deleted successfully."), saveEmployees filtered)

/-- The zod check `z.string().regex(/^\d{10}$/)` on the tool's phone field
(`mcp-server.mjs` lines 89-92): exactly 10 digit characters, verbatim. -/
def phoneSchemaOk (s : String) : Bool :=
  s.length == 10 && s.data.all Char.isDigit

/-- Modelled from the spec: the tool path's stricter email-shape check
(`z.string().email()`, whose code lives in the zod library, not in this
repository). The spec only says a stricter email-shape validation is
applied; modelled as a local part and a dotted domain around one `@`. -/
def emailShapeOk (s : String) : Bool :=
  s.data.count '@' == 1 &&
  s.data.takeWhile (fun c => c ≠ '@') ≠ [] &&
  (match s.data.dropWhile (fun c => c ≠ '@') with
   | _ :: dom => dom ≠ [] && dom.contains '.'
   | [] => false)

/-- Arguments of the `create_employee` tool after zod has established the
required fields are present (`mcp-server.mjs` lines 86-113). -/
structure CreateArgs where
  name : String
  email : String
  phone : String
  role : Option String := none
  department : Option String := none
  salary : Option Int := none
  date_of_joining : Option String := none
  status : Option String := none
deriving Repr, DecidableEq

/-- The zod input schema of `create_employee`: `name` non-empty, email
shape, phone `^\d{10}$`. When it fails the SDK rejects the call and the
handler never runs. -/
def createArgsSchemaOk (args : CreateArgs) : Bool :=
  decide (args.name.length ≥ 1) && emailShapeOk args.email && phoneSchemaOk args.phone

/-- `create_employee` tool (`mcp-server.mjs` lines 116-143): on
schema-valid input, build the record (phone stored verbatim, salary via
`??`) and persist; on schema-invalid input the handler does not run and
nothing is written (`none`). -/
def create_employee (doc : StoredDoc) (args : CreateArgs) : Option (Employee × StoredDoc) :=
  if createArgsSchemaOk args then
    let employees := loadEmployees doc
    let newEmployee : Employee :=
      { id := getNextId employees
        name := args.name
        email := args.email
        phone := args.phone
        role := jsOrOpt args.role ""
        department := jsOrOpt args.department ""
        salary := args.salary.getD 0
        date_of_joining := jsOrOpt args.date_of_joining ""
        status := jsOrOpt args.status "Active" }
    some (newEmployee, saveEmployees (employees ++ [newEmployee]))
  else none

/-- The collection invariants of spec section 3: unique ids, non-empty
name and email, phone exactly 10 digit characters. -/
def storeWF (store : List Employee) : Prop :=
  (store.map (fun e => e.id)).Nodup ∧
    ∀ e ∈ store, e.name ≠ "" ∧ e.email ≠ "" ∧
      e.phone.length = 10 ∧ ∀ c ∈ e.phone.data, c.isDigit

instance (store : List Employee) : Decidable (storeWF store) := by
  unfold storeWF; infer_instance

/-! ## Helper lemmas -/

theorem not_whitespace_of_isDigit (c : Char) (h : c.isDigit = true) :
    c.isWhitespace = false := by
  simp only [Char.isDigit, ge_iff_le, Bool.and_eq_true, decide_eq_true_eq] at h
  simp only [Char.isWhitespace, Bool.or_eq_false_iff, decide_eq_false_iff_not]
  refine ⟨⟨⟨?_, ?_⟩, ?_⟩, ?_⟩ <;> (rintro rfl; revert h; decide)

theorem dropWhile_ws_eq_self {l : List Char} (h : ∀ c ∈ l, c.isDigit = true) :
    l.dropWhile Char.isWhitespace = l := by
  cases l with
  | nil => rfl
  | cons a t =>
    rw [List.dropWhile_cons, not_whitespace_of_isDigit a (h a (List.mem_cons_self a t))]
    simp

theorem jsTrim_eq_self_of_digits {s : String} (h : ∀ c ∈ s.data, c.isDigit = true) :
    jsTrim s = s := by
  unfold jsTrim
  rw [dropWhile_ws_eq_self h,
    dropWhile_ws_eq_self (fun c hc => h c (List.mem_reverse.mp hc)),
    List.reverse_reverse]

theorem stripNonDigits_digits (s : String) :
    ∀ c ∈ (stripNonDigits s).data, c.isDigit = true := by
  intro c hc
  exact (List.mem_filter.mp hc).2

theorem stripNonDigits_eq_self_of_digits {s : String} (h : ∀ c ∈ s.data, c.isDigit = true) :
    stripNonDigits s = s := by
  unfold stripNonDigits
  rw [List.filter_eq_self.mpr h]

theorem normalizePhone_digits (s : String) :
    ∀ c ∈ (normalizePhone s).data, c.isDigit = true :=
  stripNonDigits_digits (jsTrim s)

theorem filter_length_eq_iff {α : Type} (p : α → Bool) (l : List α) :
    (l.filter p).length = l.length ↔ ∀ x ∈ l, p x = true := by
  induction l with
  | nil => simp
  | cons a t ih =>
    cases hpa : p a with
    | true => simp [List.filter_cons, hpa, ih]
    | false =>
      rw [List.filter_cons, if_neg (by simp [hpa]), List.length_cons]
      constructor
      · intro h
        exfalso
        have hle := List.length_filter_le p t
        omega
      · intro h
        exact absurd (h a (List.mem_cons_self a t)) (by simp [hpa])

theorem le_jsMax : ∀ (l : List Int), ∀ x ∈ l, x ≤ jsMax l
  | [], x, h => absurd h (List.not_mem_nil x)
  | [a], x, h => by
    rw [List.mem_singleton] at h
    simp [jsMax, h]
  | a :: b :: rest, x, h => by
    rcases List.mem_cons.mp h with rfl | h2
    · exact le_max_left _ _
    · exact le_trans (le_jsMax (b :: rest) x h2) (le_max_right _ _)

theorem getNextId_gt {employees : List Employee} {e : Employee} (h : e ∈ employees) :
    e.id < getNextId employees := by
  unfold getNextId
  cases employees with
  | nil => cases h
  | cons a t =>
    rw [if_neg (by simp)]
    have hm : e.id ∈ (a :: t).map (fun x => x.id) := List.mem_map_of_mem _ h
    have := le_jsMax _ _ hm
    omega

theorem mem_replaceFirst {l : List Employee} {id : Int} {u x : Employee}
    (h : x ∈ replaceFirst l id u) : x ∈ l ∨ x = u := by
  induction l with
  | nil => cases h
  | cons a t ih =>
    unfold replaceFirst at h
    by_cases ha : a.id = id
    · rw [if_pos ha] at h
      rcases List.mem_cons.mp h with rfl | h2
      · exact Or.inr rfl
      · exact Or.inl (List.mem_cons_of_mem _ h2)
    · rw [if_neg ha] at h
      rcases List.mem_cons.mp h with rfl | h2
      · exact Or.inl (List.mem_cons_self _ _)
      · rcases ih h2 with h3 | h3
        · exact Or.inl (List.mem_cons_of_mem _ h3)
        · exact Or.inr h3

theorem map_id_replaceFirst {l : List Employee} {id : Int} {u : Employee} (hu : u.id = id) :
    (replaceFirst l id u).map (fun e => e.id) = l.map (fun e => e.id) := by
  induction l with
  | nil => rfl
  | cons a t ih =>
    unfold replaceFirst
    by_cases ha : a.id = id
    · rw [if_pos ha]
      simp [hu, ha]
    · rw [if_neg ha]
      simp [ih]

/-! ## Claims -/

/-- A concrete record used by witnesses. -/
def mkEmp (i : Int) : Employee :=
  ⟨i, "E", "e@x.com", "0123456789", "", "", 0, "", "Active"⟩

/-- C3: `getNextId` returns 1 on the empty collection and max(id)+1
otherwise; on `[{id:1},{id:3}]` it returns 4; after deleting the
highest-id record of `[{id:1},{id:2},{id:3}]` the freed id 3 is the id the
next created record receives. -/
theorem claim_C3_nextId :
    getNextId [] = 1 ∧
    (∀ employees : List Employee, employees ≠ [] →
      getNextId employees = jsMax (employees.map (fun e => e.id)) + 1) ∧
    (∀ e1 e3 : Employee, e1.id = 1 → e3.id = 3 → getNextId [e1, e3] = 4) ∧
    (∀ (doc : StoredDoc) (e1 e2 e3 : Employee), loadEmployees doc = [e1, e2, e3] →
      e1.id = 1 → e2.id = 2 → e3.id = 3 →
      ∀ data : EmployeeInput,
        (newEmployeeOf (loadEmployees (deleteEmployeeRoute doc 3).2) data).id = 3) := by
  refine ⟨rfl, ?_, ?_, ?_⟩
  · intro employees h
    unfold getNextId
    rw [if_neg (by simpa using h)]
  · intro e1 e3 h1 h3
    simp [getNextId, jsMax, h1, h3]
  · intro doc e1 e2 e3 hload h1 h2 h3 data
    simp only [deleteEmployeeRoute, hload]
    simp [h1, h2, h3, List.filter_cons, newEmployeeOf, loadEmployees, saveEmployees,
      getNextId, jsMax]

/-- Witness for C3 at concrete records. -/
theorem claim_C3_witness :
    getNextId [mkEmp 1, mkEmp 3] = 4 ∧
    (newEmployeeOf (loadEmployees
      (deleteEmployeeRoute (.stored [mkEmp 1, mkEmp 2, mkEmp 3]) 3).2) {}).id = 3 :=
  ⟨claim_C3_nextId.2.2.1 (mkEmp 1) (mkEmp 3) rfl rfl,
   claim_C3_nextId.2.2.2 (.stored [mkEmp 1, mkEmp 2, mkEmp 3]) (mkEmp 1) (mkEmp 2) (mkEmp 3)
     rfl rfl rfl rfl {}⟩

/-- C6: deleting an id that is present removes the matching record and
persists the remaining collection (HTTP route answers 204, the tool a
success text); deleting an absent id signals not-found and writes
nothing, in both the HTTP route and the `delete_employee` tool. -/
theorem claim_C6_delete (doc : StoredDoc) (id : Int) :
    ((∀ e ∈ loadEmployees doc, e.id ≠ id) →
      deleteEmployeeRoute doc id = (.errorRes 404 "Employee not found", doc) ∧
      delete_employee doc id = (.text ("No employee found with id " ++ toString id ++ "."), doc)) ∧
    ((∃ e ∈ loadEmployees doc, e.id = id) →
      deleteEmployeeRoute doc id =
        (.emptyRes 204, saveEmployees ((loadEmployees doc).filter (fun e => e.id ≠ id))) ∧
      delete_employee doc id =
        (.text ("Employee with id " ++ toString id ++ " deleted successfully."),
         saveEmployees ((loadEmployees doc).filter (fun e => e.id ≠ id)))) := by
  constructor
  · intro hall
    have hlen : ((loadEmployees doc).filter (fun e => e.id ≠ id)).length =
        (loadEmployees doc).length :=
      (filter_length_eq_iff _ _).mpr (fun x hx => by simp [hall x hx])
    constructor
    · show deleteEmployeeRoute doc id = _
      unfold deleteEmployeeRoute
      rw [if_pos hlen]
    · show delete_employee doc id = _
      unfold delete_employee
      rw [if_pos hlen]
  · rintro ⟨e, he, heid⟩
    have hlen : ((loadEmployees doc).filter (fun e => e.id ≠ id)).length ≠
        (loadEmployees doc).length := by
      intro h
      have := (filter_length_eq_iff _ _).mp h e he
      simp [heid] at this
    constructor
    · show deleteEmployeeRoute doc id = _
      unfold deleteEmployeeRoute
      rw [if_neg hlen]
    · show delete_employee doc id = _
      unfold delete_employee
      rw [if_neg hlen]

/-- Witness for C6: delete id 1 from a one-record store, delete id 2 from
the same store. -/
theorem claim_C6_witness :
    deleteEmployeeRoute (.stored [mkEmp 1]) 1 = (.emptyRes 204, .stored []) ∧
    deleteEmployeeRoute (.stored [mkEmp 1]) 2 =
      (.errorRes 404 "Employee not found", .stored [mkEmp 1]) :=
  ⟨((claim_C6_delete (.stored [mkEmp 1]) 1).2 ⟨mkEmp 1, by decide, rfl⟩).1,
   ((claim_C6_delete (.stored [mkEmp 1]) 2).1 (by decide)).1⟩

/-- C7: saving any in-memory collection and loading it back yields the
same collection, in the same order. -/
theorem claim_C7_roundTrip (employees : List Employee) :
    loadEmployees (saveEmployees employees) = employees := rfl

/-- C8: `loadEmployees` yields the empty collection on an absent, blank or
unparseable backing document, and yields some collection on every
backing-document state (it is total, never raising to the caller). -/
theorem claim_C8_load (doc : StoredDoc) :
    (doc = .absent ∨ doc = .blank ∨ doc = .corrupt → loadEmployees doc = []) ∧
    (∃ employees, loadEmployees doc = employees) := by
  constructor
  · rintro (rfl | rfl | rfl) <;> rfl
  · exact ⟨loadEmployees doc, rfl⟩

/-- Witness for C8 at each degenerate document state. -/
theorem claim_C8_witness :
    loadEmployees .absent = [] ∧ loadEmployees .blank = [] ∧ loadEmployees .corrupt = [] :=
  ⟨(claim_C8_load .absent).1 (Or.inl rfl),
   (claim_C8_load .blank).1 (Or.inr (Or.inl rfl)),
   (claim_C8_load .corrupt).1 (Or.inr (Or.inr rfl))⟩

/-- C9: phone normalization is idempotent, and a phone whose stripped
digit string does not have length 10 fails validation: the create handler
answers 400 with the phone message and does not write. -/
theorem claim_C9_normalize (x : String) (doc : StoredDoc) (data : EmployeeInput) :
    normalizePhone (normalizePhone x) = normalizePhone x ∧
    (isMissing data.name = false → isMissing data.email = false →
      isMissing data.phone = false →
      (normalizePhone (jsOrOpt data.phone "")).length ≠ 10 →
      postEmployees doc data =
        (.errorRes 400 "Phone number must be exactly 10 digits", doc)) := by
  constructor
  · have hd := stripNonDigits_digits (jsTrim x)
    show stripNonDigits (jsTrim (stripNonDigits (jsTrim x))) = stripNonDigits (jsTrim x)
    rw [jsTrim_eq_self_of_digits hd, stripNonDigits_eq_self_of_digits hd]
  · intro hn he hp h10
    simp [postEmployees, hn, he, hp, h10]

/-- Witness for C9: normalization of "555-123-4567" and a 3-digit phone
rejected by the create handler. -/
theorem claim_C9_witness :
    normalizePhone (normalizePhone "555-123-4567") = normalizePhone "555-123-4567" ∧
    postEmployees (.stored [mkEmp 1])
        { name := some "Bo", email := some "b@x.com", phone := some "123" } =
      (.errorRes 400 "Phone number must be exactly 10 digits", .stored [mkEmp 1]) :=
  ⟨(claim_C9_normalize "555-123-4567" .absent {}).1,
   (claim_C9_normalize "" (.stored [mkEmp 1])
      { name := some "Bo", email := some "b@x.com", phone := some "123" }).2
     (by decide) (by decide) (by decide) (by decide)⟩

/-- C1: for every valid create input (required fields present and
non-blank, phone stripping to exactly 10 digits) against any document, the
create handler answers 201 with the new record — id from `getNextId` on
the prior collection, phone the stripped digit string, optional fields
defaulted — and persists the prior collection with that record appended. -/
theorem claim_C1_create (doc : StoredDoc) (data : EmployeeInput)
    (hn : isMissing data.name = false) (he : isMissing data.email = false)
    (hp : isMissing data.phone = false)
    (h10 : (normalizePhone (jsOrOpt data.phone "")).length = 10) :
    postEmployees doc data =
      (.employeeRes 201 (newEmployeeOf (loadEmployees doc) data),
       saveEmployees (loadEmployees doc ++ [newEmployeeOf (loadEmployees doc) data])) ∧
    (newEmployeeOf (loadEmployees doc) data).id = getNextId (loadEmployees doc) ∧
    (newEmployeeOf (loadEmployees doc) data).phone = normalizePhone (jsOrOpt data.phone "") ∧
    (data.role = none → (newEmployeeOf (loadEmployees doc) data).role = "") ∧
    (data.department = none → (newEmployeeOf (loadEmployees doc) data).department = "") ∧
    (data.salary = none → (newEmployeeOf (loadEmployees doc) data).salary = 0) ∧
    (data.date_of_joining = none →
      (newEmployeeOf (loadEmployees doc) data).date_of_joining = "") ∧
    (data.status = none → (newEmployeeOf (loadEmployees doc) data).status = "Active") := by
  refine ⟨?_, rfl, rfl, ?_, ?_, ?_, ?_, ?_⟩
  · simp [postEmployees, hn, he, hp, h10]
  all_goals intro h
  all_goals simp [newEmployeeOf, jsOrOpt, jsOrOptInt, h]

/-- Witness for C1: the Ann scenario on an empty store yields exactly the
documented record. -/
theorem claim_C1_witness :
    postEmployees .absent
        { name := some "Ann", email := some "a@x.com", phone := some "555-123-4567" } =
      (.employeeRes 201 ⟨1, "Ann", "a@x.com", "5551234567", "", "", 0, "", "Active"⟩,
       .stored [⟨1, "Ann", "a@x.com", "5551234567", "", "", 0, "", "Active"⟩]) :=
  (claim_C1_create .absent
    { name := some "Ann", email := some "a@x.com", phone := some "555-123-4567" }
    (by decide) (by decide) (by decide) (by decide)).1

/-- C2: the update handler answers 404 on an absent id; on a present id it
replaces the record by the merge of the old record with the supplied
fields and persists it, where a supplied phone must normalize to 10 digits
(else 400 and nothing is written) and each absent field keeps its prior
value. -/
theorem claim_C2_update (doc : StoredDoc) (id : Int) (data : EmployeeInput) :
    ((loadEmployees doc).find? (fun e => e.id == id) = none →
      putEmployee doc id data = (.errorRes 404 "Employee not found", doc)) ∧
    (∀ emp, (loadEmployees doc).find? (fun e => e.id == id) = some emp →
      (data.phone = none →
        putEmployee doc id data =
          (.employeeRes 200 (mergeEmployee emp data emp.phone),
           saveEmployees (replaceFirst (loadEmployees doc) id (mergeEmployee emp data emp.phone)))) ∧
      (∀ p, data.phone = some p → (normalizePhone (jsOrStr p "")).length ≠ 10 →
        putEmployee doc id data = (.errorRes 400 "Phone number must be exactly 10 digits", doc)) ∧
      (∀ p, data.phone = some p → (normalizePhone (jsOrStr p "")).length = 10 →
        putEmployee doc id data =
          (.employeeRes 200 (mergeEmployee emp data (normalizePhone (jsOrStr p ""))),
           saveEmployees (replaceFirst (loadEmployees doc) id
             (mergeEmployee emp data (normalizePhone (jsOrStr p ""))))))) ∧
    (∀ emp ph,
      (mergeEmployee emp data ph).id = emp.id ∧
      (mergeEmployee emp data ph).name = data.name.getD emp.name ∧
      (mergeEmployee emp data ph).email = data.email.getD emp.email ∧
      (mergeEmployee emp data ph).phone = ph ∧
      (mergeEmployee emp data ph).role = data.role.getD emp.role ∧
      (mergeEmployee emp data ph).department = data.department.getD emp.department ∧
      (mergeEmployee emp data ph).salary = data.salary.getD emp.salary ∧
      (mergeEmployee emp data ph).date_of_joining = data.date_of_joining.getD emp.date_of_joining ∧
      (mergeEmployee emp data ph).status = data.status.getD emp.status) := by
  refine ⟨?_, ?_, ?_⟩
  · intro hnone
    simp [putEmployee, hnone]
  · intro emp hfind
    refine ⟨?_, ?_, ?_⟩
    · intro hph
      simp [putEmployee, hfind, hph]
    · intro p hph h10
      simp [putEmployee, hfind, hph, h10]
    · intro p hph h10
      simp [putEmployee, hfind, hph, h10]
  · intro emp ph
    exact ⟨rfl, rfl, rfl, rfl, rfl, rfl, rfl, rfl, rfl⟩

/-- Witness for C2: a status-only update of a one-record store leaves the
phone (and all other fields) identical; an update of an absent id answers
404. -/
theorem claim_C2_witness :
    putEmployee (.stored [mkEmp 1]) 1 { status := some "Inactive" } =
      (.employeeRes 200 ⟨1, "E", "e@x.com", "0123456789", "", "", 0, "", "Inactive"⟩,
       .stored [⟨1, "E", "e@x.com", "0123456789", "", "", 0, "", "Inactive"⟩]) ∧
    putEmployee (.stored [mkEmp 1]) 2 { status := some "Inactive" } =
      (.errorRes 404 "Employee not found", .stored [mkEmp 1]) :=
  ⟨((claim_C2_update (.stored [mkEmp 1]) 1 { status := some "Inactive" }).2.1
      (mkEmp 1) (by decide)).1 rfl,
   (claim_C2_update (.stored [mkEmp 1]) 2 { status := some "Inactive" }).1 (by decide)⟩

/-- C5: every validation failure — a required create field absent, empty
or whitespace-only, or a phone (in create, or supplied to update on a
present id) not stripping to 10 digits — yields a 400 response whose
message names the field or reason, and leaves the document unwritten. -/
theorem claim_C5_validation (doc : StoredDoc) (data : EmployeeInput) (id : Int) :
    (isMissing data.name = true →
      postEmployees doc data = (.errorRes 400 "'name' is required", doc)) ∧
    (isMissing data.name = false → isMissing data.email = true →
      postEmployees doc data = (.errorRes 400 "'email' is required", doc)) ∧
    (isMissing data.name = false → isMissing data.email = false →
      isMissing data.phone = true →
      postEmployees doc data = (.errorRes 400 "'phone' is required", doc)) ∧
    (isMissing data.name = false → isMissing data.email = false →
      isMissing data.phone = false →
      (normalizePhone (jsOrOpt data.phone "")).length ≠ 10 →
      postEmployees doc data =
        (.errorRes 400 "Phone number must be exactly 10 digits", doc)) ∧
    (∀ emp, (loadEmployees doc).find? (fun e => e.id == id) = some emp →
      ∀ p, data.phone = some p → (normalizePhone (jsOrStr p "")).length ≠ 10 →
      putEmployee doc id data =
        (.errorRes 400 "Phone number must be exactly 10 digits", doc)) := by
  refine ⟨?_, ?_, ?_, ?_, ?_⟩
  · intro h
    simp [postEmployees, h]
  · intro hn h
    simp [postEmployees, hn, h]
  · intro hn he h
    simp [postEmployees, hn, he, h]
  · intro hn he hp h10
    simp [postEmployees, hn, he, hp, h10]
  · intro emp hfind p hph h10
    simp [putEmployee, hfind, hph, h10]

/-- Witness for C5: a whitespace-only name, and a 3-digit phone update,
each rejected with the document unchanged. -/
theorem claim_C5_witness :
    postEmployees (.stored [mkEmp 1])
        { name := some "  ", email := some "b@x.com", phone := some "0123456789" } =
      (.errorRes 400 "'name' is required", .stored [mkEmp 1]) ∧
    putEmployee (.stored [mkEmp 1]) 1 { phone := some "123" } =
      (.errorRes 400 "Phone number must be exactly 10 digits", .stored [mkEmp 1]) :=
  ⟨(claim_C5_validation (.stored [mkEmp 1])
      { name := some "  ", email := some "b@x.com", phone := some "0123456789" } 1).1
      (by decide),
   (claim_C5_validation (.stored [mkEmp 1]) { phone := some "123" } 1).2.2.2.2
      (mkEmp 1) (by decide) "123" rfl (by decide)⟩

/-- C10: the `create_employee` tool does not normalize the phone — with
the other schema fields valid it accepts an input iff the phone is already
exactly 10 digit characters, stores the phone verbatim, and rejects
"555-123-4567", which the HTTP create accepts (storing "5551234567"). -/
theorem claim_C10_tool_phone (doc : StoredDoc) (args : CreateArgs)
    (hname : args.name.length ≥ 1) (hemail : emailShapeOk args.email = true) :
    ((create_employee doc args).isSome = true ↔ phoneSchemaOk args.phone = true) ∧
    (∀ emp doc2, create_employee doc args = some (emp, doc2) →
      emp.phone = args.phone ∧ doc2 = saveEmployees (loadEmployees doc ++ [emp])) ∧
    phoneSchemaOk "555-123-4567" = false ∧
    (∀ data : EmployeeInput, data.phone = some "555-123-4567" →
      isMissing data.name = false → isMissing data.email = false →
      ∃ emp, (postEmployees doc data).1 = .employeeRes 201 emp ∧
        emp.phone = "5551234567") := by
  have hschema : createArgsSchemaOk args = phoneSchemaOk args.phone := by
    simp [createArgsSchemaOk, hname, hemail]
  refine ⟨?_, ?_, by decide, ?_⟩
  · cases hph : phoneSchemaOk args.phone with
    | true => simp [create_employee, hschema, hph]
    | false => simp [create_employee, hschema, hph]
  · intro emp doc2 h
    cases hs : createArgsSchemaOk args with
    | false => simp [create_employee, hs] at h
    | true =>
      simp [create_employee, hs] at h
      obtain ⟨h1, h2⟩ := h
      subst h1
      subst h2
      exact ⟨rfl, rfl⟩
  · intro data hph hn he
    have hp : isMissing data.phone = false := by rw [hph]; decide
    have h10 : (normalizePhone (jsOrOpt data.phone "")).length = 10 := by
      rw [hph]; decide
    refine ⟨newEmployeeOf (loadEmployees doc) data, ?_, ?_⟩
    · simp [postEmployees, hn, he, hp, h10]
    · show normalizePhone (jsOrOpt data.phone "") = "5551234567"
      rw [hph]; decide

/-- Witness for C10: the tool accepts the already-10-digit phone, rejects
the dashed phone that the HTTP path accepts and stores stripped. -/
theorem claim_C10_witness :
    (create_employee .absent { name := "Ann", email := "a@x.com", phone := "5551234567" }).isSome
      = true ∧
    phoneSchemaOk "555-123-4567" = false ∧
    (∃ emp, (postEmployees .absent
        { name := some "Ann", email := some "a@x.com", phone := some "555-123-4567" }).1 =
      .employeeRes 201 emp ∧ emp.phone = "5551234567") :=
  ⟨(claim_C10_tool_phone .absent { name := "Ann", email := "a@x.com", phone := "5551234567" }
      (by decide) (by decide)).1.mpr (by decide),
   (claim_C10_tool_phone .absent { name := "Ann", email := "a@x.com", phone := "5551234567" }
      (by decide) (by decide)).2.2.1,
   (claim_C10_tool_phone .absent { name := "Ann", email := "a@x.com", phone := "5551234567" }
      (by decide) (by decide)).2.2.2
      { name := some "Ann", email := some "a@x.com", phone := some "555-123-4567" }
      rfl (by decide) (by decide)⟩

theorem name_of_not_missing {o : Option String} (h : isMissing o = false) :
    o.getD "" ≠ "" := by
  cases o with
  | none => simp [isMissing] at h
  | some s =>
    simp [isMissing] at h
    simpa using h.1

theorem getD_ne_empty {o : Option String} {d : String} (ho : o ≠ some "")
    (hd : d ≠ "") : o.getD d ≠ "" := by
  cases o with
  | none => simpa using hd
  | some s =>
    intro hs
    simp at hs
    exact ho (by rw [hs])

/-- The well-formedness of a store with the first id-match replaced by a
record carrying the same id and well-formed fields. -/
theorem replaceFirst_wf {employees : List Employee} {merged : Employee} {id : Int}
    (hwf : storeWF employees) (hid : merged.id = id)
    (hname : merged.name ≠ "") (hemail : merged.email ≠ "")
    (hphlen : merged.phone.length = 10)
    (hphd : ∀ c ∈ merged.phone.data, c.isDigit) :
    storeWF (replaceFirst employees id merged) := by
  obtain ⟨hnd, hmem⟩ := hwf
  constructor
  · rw [map_id_replaceFirst hid]
    exact hnd
  · intro e he
    rcases mem_replaceFirst he with h | rfl
    · exact hmem e h
    · exact ⟨hname, hemail, hphlen, hphd⟩

/-- C4 fails as stated: the update handler never re-validates `name` (or
`email`), so updating a well-formed one-record store with `{name: ""}`
succeeds (200) and leaves a record with an empty name. -/
theorem claim_C4_counterexample :
    storeWF [mkEmp 1] ∧
    (putEmployee (.stored [mkEmp 1]) 1 { name := some "" }).1 =
      .employeeRes 200 ⟨1, "", "e@x.com", "0123456789", "", "", 0, "", "Active"⟩ ∧
    ¬ storeWF (loadEmployees (putEmployee (.stored [mkEmp 1]) 1 { name := some "" }).2) := by
  refine ⟨by decide, by decide, by decide⟩

/-- C4 (amended): on a store with unique ids, non-empty names and emails,
and 10-digit phones, create and delete preserve all the invariants, and
update preserves them provided any supplied name or email is not the
empty string (the update handler does not re-validate those fields). -/
theorem claim_C4_invariants (doc : StoredDoc) (data : EmployeeInput) (id : Int)
    (hwf : storeWF (loadEmployees doc)) :
    storeWF (loadEmployees (postEmployees doc data).2) ∧
    storeWF (loadEmployees (deleteEmployeeRoute doc id).2) ∧
    (data.name ≠ some "" → data.email ≠ some "" →
      storeWF (loadEmployees (putEmployee doc id data).2)) := by
  obtain ⟨hnd, hmem⟩ := hwf
  refine ⟨?_, ?_, ?_⟩
  · -- create
    cases hn : isMissing data.name with
    | true => simpa [postEmployees, hn] using ⟨hnd, hmem⟩
    | false =>
    cases he : isMissing data.email with
    | true => simpa [postEmployees, hn, he] using ⟨hnd, hmem⟩
    | false =>
    cases hp : isMissing data.phone with
    | true => simpa [postEmployees, hn, he, hp] using ⟨hnd, hmem⟩
    | false =>
    by_cases h10 : (normalizePhone (jsOrOpt data.phone "")).length = 10
    · have hres : (postEmployees doc data).2 =
          saveEmployees (loadEmployees doc ++ [newEmployeeOf (loadEmployees doc) data]) := by
        simp [postEmployees, hn, he, hp, h10]
      rw [hres]
      show storeWF (loadEmployees doc ++ [newEmployeeOf (loadEmployees doc) data])
      constructor
      · rw [List.map_append, List.nodup_append]
        refine ⟨hnd, List.nodup_singleton _, ?_⟩
        intro a ha hb
        obtain ⟨e, hemem, rfl⟩ := List.mem_map.mp ha
        have hlt := getNextId_gt hemem
        have hb2 : e.id = (newEmployeeOf (loadEmployees doc) data).id := by simpa using hb
        have : (newEmployeeOf (loadEmployees doc) data).id = getNextId (loadEmployees doc) := rfl
        omega
      · intro e he2
        rcases List.mem_append.mp he2 with h | h
        · exact hmem e h
        · have heq : e = newEmployeeOf (loadEmployees doc) data := by simpa using h
          subst heq
          exact ⟨name_of_not_missing hn, name_of_not_missing he, h10,
            normalizePhone_digits _⟩
    · simpa [postEmployees, hn, he, hp, h10] using ⟨hnd, hmem⟩
  · -- delete
    by_cases hlen : ((loadEmployees doc).filter (fun e => e.id ≠ id)).length =
        (loadEmployees doc).length
    · have hres : (deleteEmployeeRoute doc id).2 = doc := by
        unfold deleteEmployeeRoute
        rw [if_pos hlen]
      rw [hres]
      exact ⟨hnd, hmem⟩
    · have hres : (deleteEmployeeRoute doc id).2 =
          saveEmployees ((loadEmployees doc).filter (fun e => e.id ≠ id)) := by
        unfold deleteEmployeeRoute
        rw [if_neg hlen]
      rw [hres]
      show storeWF ((loadEmployees doc).filter (fun e => e.id ≠ id))
      constructor
      · exact List.Nodup.sublist ((List.filter_sublist _).map _) hnd
      · intro e he
        exact hmem e (List.mem_of_mem_filter he)
  · -- update
    intro hne hee
    cases hfind : (loadEmployees doc).find? (fun e => e.id == id) with
    | none => simpa [putEmployee, hfind] using ⟨hnd, hmem⟩
    | some emp =>
      have hmemEmp : emp ∈ loadEmployees doc := List.mem_of_find?_eq_some hfind
      have hid : emp.id = id := by simpa using List.find?_some hfind
      obtain ⟨hn0, he0, hl0, hd0⟩ := hmem emp hmemEmp
      cases hph : data.phone with
      | none =>
        have hres : (putEmployee doc id data).2 =
            saveEmployees (replaceFirst (loadEmployees doc) id
              (mergeEmployee emp data emp.phone)) := by
          simp [putEmployee, hfind, hph]
        rw [hres]
        show storeWF (replaceFirst (loadEmployees doc) id (mergeEmployee emp data emp.phone))
        exact replaceFirst_wf ⟨hnd, hmem⟩ hid (getD_ne_empty hne hn0)
          (getD_ne_empty hee he0) hl0 hd0
      | some p =>
        by_cases h10 : (normalizePhone (jsOrStr p "")).length = 10
        · have hres : (putEmployee doc id data).2 =
              saveEmployees (replaceFirst (loadEmployees doc) id
                (mergeEmployee emp data (normalizePhone (jsOrStr p "")))) := by
            simp [putEmployee, hfind, hph, h10]
          rw [hres]
          show storeWF (replaceFirst (loadEmployees doc) id
            (mergeEmployee emp data (normalizePhone (jsOrStr p ""))))
          exact replaceFirst_wf ⟨hnd, hmem⟩ hid (getD_ne_empty hne hn0)
            (getD_ne_empty hee he0) h10 (normalizePhone_digits _)
        · simpa [putEmployee, hfind, hph, h10] using ⟨hnd, hmem⟩

/-- Witness for C4: a well-formed one-record store, a valid create input,
a delete, and an update whose supplied fields are non-empty. -/
theorem claim_C4_witness :
    storeWF (loadEmployees (postEmployees (.stored [mkEmp 1])
      { name := some "Bo", email := some "b@x.com", phone := some "555-123-4567" }).2) ∧
    storeWF (loadEmployees (deleteEmployeeRoute (.stored [mkEmp 1]) 1).2) ∧
    storeWF (loadEmployees (putEmployee (.stored [mkEmp 1]) 1
      { name := some "Bo", email := some "b@x.com", phone := some "555-123-4567" }).2) :=
  ⟨(claim_C4_invariants (.stored [mkEmp 1])
      { name := some "Bo", email := some "b@x.com", phone := some "555-123-4567" } 1
      (by decide)).1,
   (claim_C4_invariants (.stored [mkEmp 1])
      { name := some "Bo", email := some "b@x.com", phone := some "555-123-4567" } 1
      (by decide)).2.1,
   (claim_C4_invariants (.stored [mkEmp 1])
      { name := some "Bo", email := some "b@x.com", phone := some "555-123-4567" } 1
      (by decide)).2.2 (by decide) (by decide)⟩
